import Mathlib

/-
Verification of the CRUD REST API in src/server.js (Dalexgaex/apifinal2).

The server is an Express application exposing four CRUD routes per resource
(usuarios, maquinas, alquileres, pagos, distribuidores, resenas, categorias,
ubicaciones, soporte, trabajadores) over a Firestore-style document store.
Each route handler is embedded below as a pure Lean function from the store
state and the parsed JSON request body to the new store state and the HTTP
response.  JSON values are embedded as `JsonVal`, a parsed JSON object as an
association list (JSON.parse collapses duplicate keys, so the bodies the
handlers actually receive have unique keys; we use first-match lookup).
JavaScript `undefined` (an absent key) is `Option.none`.
-/

namespace Apifinal

/-- JSON value as delivered by body-parser to a handler.  Numbers are embedded
as integers: every numeric literal relevant to the verified claims (ratings
0,1,5,6, prices, coordinates, amounts) is integral, and no handler performs
arithmetic on them. -/
inductive JsonVal where
  | str (s : String)
  | num (n : Int)
  | boolean (b : Bool)
  | null
  | obj (fields : List (String × JsonVal))

/-- Association-list lookup, first match wins (models property access on a
parsed JSON object, whose keys are unique). -/
def alook {α : Type} : List (String × α) → String → Option α
  | [], _ => none
  | kv :: rest, k => if kv.1 == k then some kv.2 else alook rest k

/-- Field map of a stored document. -/
abbrev Doc := List (String × JsonVal)

/-- Parsed JSON request body (`req.body`). -/
abbrev Payload := List (String × JsonVal)

/-- JavaScript truthiness of a defined value: `""`, `0`, `false` and `null`
are falsy; every object is truthy. -/
def truthy : JsonVal → Bool
  | .str s => !s.isEmpty
  | .num n => n != 0
  | .boolean b => b
  | .null => false
  | .obj _ => true

/-- Truthiness of a possibly-undefined value (`undefined` is falsy), as used
by the handlers' `if (!field)` presence checks. -/
def truthyOpt : Option JsonVal → Bool
  | none => false
  | some v => truthy v

/-- JavaScript numeric coercion for the `<` / `>` comparisons in the review
handlers (`Number(x)`): `null` and `false` coerce to 0, `true` to 1, numeric
strings to their value; a non-numeric string or an object gives NaN, embedded
as `none`. -/
def toNumber : JsonVal → Option Int
  | .num n => some n
  | .boolean b => some (if b then 1 else 0)
  | .null => some 0
  | .str s => if s.isEmpty then some 0 else s.toInt?
  | .obj _ => none

/-- JavaScript `x < k` for a possibly-undefined `x` and integer literal `k`:
false when `x` is `undefined` or coerces to NaN. -/
def jsLtNum (v : Option JsonVal) (k : Int) : Bool :=
  match v with
  | none => false
  | some x =>
    match toNumber x with
    | none => false
    | some n => decide (n < k)

/-- JavaScript `x > k` for a possibly-undefined `x` and integer literal `k`. -/
def jsGtNum (v : Option JsonVal) (k : Int) : Bool :=
  match v with
  | none => false
  | some x =>
    match toNumber x with
    | none => false
    | some n => decide (n > k)

/-- Identifier assigned by the store to the `n`-th created document. -/
def genId (n : Nat) : String := "doc" ++ toString n

/-- Modelled from the spec: one collection of the document store client
(src/firebase.js is not part of src/).  The spec describes it as "a managed,
schemaless, per-collection key-value database where each collection holds
independent JSON-like documents addressed by a server-assigned identifier".
`docs` maps identifiers to documents; `nextId` feeds the server-assigned,
unique, non-empty identifiers of `Collection.add`. -/
structure Collection where
  docs : List (String × Doc)
  nextId : Nat

/-- The empty collection. -/
def emptyCol : Collection := ⟨[], 0⟩

/-- Modelled from the spec: `collection(...).doc(id).get()` — fetch a
document by identifier. -/
def Collection.find (c : Collection) (id : String) : Option Doc :=
  alook c.docs id

/-- Modelled from the spec: `collection(...).add(doc)` — the store assigns a
fresh identifier and inserts exactly one document. -/
def Collection.add (c : Collection) (d : Doc) : String × Collection :=
  (genId c.nextId, ⟨c.docs ++ [(genId c.nextId, d)], c.nextId + 1⟩)

/-- Modelled from the spec: `doc(id).delete()` — removes the document at the
identifier. -/
def Collection.erase (c : Collection) (id : String) : Collection :=
  ⟨c.docs.filter (fun p => !(p.1 == id)), c.nextId⟩

/-- Merge an update object into a stored document: named fields are
overwritten in place, fields new to the document are appended, all other
stored fields are untouched.  Modelled from the spec's glossary entry for
merge update: "a write that changes only the named fields of an existing
document, leaving all other stored fields untouched". -/
def mergeDoc (d : Doc) (upd : List (String × JsonVal)) : Doc :=
  (d.map (fun kv =>
    match alook upd kv.1 with
    | some v => (kv.1, v)
    | none => kv))
  ++ upd.filter (fun kv => (alook d kv.1).isNone)

/-- Modelled from the spec: `doc(id).update(obj)` — merge-update of the
document at the identifier. -/
def Collection.mergeUpdate (c : Collection) (id : String) (upd : List (String × JsonVal)) : Collection :=
  ⟨c.docs.map (fun p => if p.1 == id then (p.1, mergeDoc p.2 upd) else p), c.nextId⟩

/-- Body of an HTTP response: either `{ mensaje }` or `{ id, ...fields }`. -/
inductive Body where
  | msg (m : String)
  | doc (id : String) (fields : Doc)

/-- HTTP response: status code plus JSON body. -/
structure Response where
  status : Nat
  body : Body

/-- The update/insert object a handler builds from the destructured body,
e.g. `{ nombre, correo, rol }`: one entry per declared field that is defined
in the body, in declaration order.  Entries whose value is `undefined` are
dropped before reaching the store (the spec's merge-update changes only the
named fields that carry a value; JSON serialization of the update object
cannot represent `undefined`). -/
def buildDoc (fields : List String) (body : Payload) : Doc :=
  fields.filterMap (fun f => (alook body f).map (fun v => (f, v)))

/-- Per-resource configuration: declared field list (in destructuring order)
and the literal response messages of the four handlers in src/server.js. -/
structure Resource where
  fields : List String
  missingMsg : String
  notFoundMsg : String
  updatedMsg : String
  deletedMsg : String

/-- Presence check of the plain create handlers: every declared field truthy
(`if (!f1 || !f2 || ...)` taken positively). -/
def requiredOkSimple (r : Resource) (body : Payload) : Bool :=
  r.fields.all (fun f => truthyOpt (alook body f))

/-- Template of the plain `POST /{resource}` handlers (all creates except
usuarios, resenas, ubicaciones): presence-check every declared field, then
insert the destructured fields verbatim and answer 201 with id + fields, or
answer 400 with the full required-field message and leave the store alone. -/
def simpleCreate (r : Resource) (c : Collection) (body : Payload) : Collection × Response :=
  if requiredOkSimple r body then
    let d := buildDoc r.fields body
    let added := c.add d
    (added.2, ⟨201, Body.doc added.1 d⟩)
  else
    (c, ⟨400, Body.msg r.missingMsg⟩)

/-- Template of every `GET /{resource}/:id` handler: 404 with the resource's
message when absent, otherwise 200 with `{ id, ...doc.data() }`. -/
def getById (r : Resource) (c : Collection) (id : String) : Response :=
  match c.find id with
  | none => ⟨404, Body.msg r.notFoundMsg⟩
  | some d => ⟨200, Body.doc id d⟩

/-- Template of the plain `PUT /{resource}/:id` handlers: existence check
first (404, store untouched), then merge-update the destructured declared
fields and answer 200 with the fixed success message. -/
def putById (r : Resource) (c : Collection) (id : String) (body : Payload) : Collection × Response :=
  match c.find id with
  | none => (c, ⟨404, Body.msg r.notFoundMsg⟩)
  | some _ => (c.mergeUpdate id (buildDoc r.fields body), ⟨200, Body.msg r.updatedMsg⟩)

/-- Template of every `DELETE /{resource}/:id` handler: existence check first
(404, store untouched), then remove the document and answer 200 with the
fixed success message. -/
def deleteById (r : Resource) (c : Collection) (id : String) : Collection × Response :=
  match c.find id with
  | none => (c, ⟨404, Body.msg r.notFoundMsg⟩)
  | some _ => (c.erase id, ⟨200, Body.msg r.deletedMsg⟩)

/-- Resource configuration of /usuarios (src/server.js lines 120-252). -/
def usuariosR : Resource :=
  ⟨["nombre", "correo", "rol"],
   "Faltan datos obligatorios: nombre, correo y rol.",
   "Usuario no encontrado.",
   "Usuario actualizado con éxito",
   "Usuario eliminado con éxito"⟩

/-- Resource configuration of /maquinas (lines 272-404). -/
def maquinasR : Resource :=
  ⟨["nombre", "descripcion", "precio", "distribuidor"],
   "Faltan datos obligatorios: nombre, descripción, precio y distribuidor.",
   "Máquina no encontrada.",
   "Máquina actualizada con éxito",
   "Máquina eliminada con éxito"⟩

/-- Resource configuration of /alquileres (lines 425-558). -/
def alquileresR : Resource :=
  ⟨["usuario", "maquina", "fecha_inicio", "fecha_fin", "estado"],
   "Faltan datos obligatorios: usuario, máquina, fecha_inicio, fecha_fin, estado.",
   "Alquiler no encontrado.",
   "Alquiler actualizado con éxito",
   "Alquiler eliminado con éxito"⟩

/-- Resource configuration of the first /pagos registration (lines 578-711),
the one Express dispatches to. -/
def pagosR : Resource :=
  ⟨["alquilerId", "monto", "metodo", "fecha_pago"],
   "Faltan datos obligatorios: alquilerId, monto, metodo, fecha_pago.",
   "Pago no encontrado.",
   "Pago actualizado con éxito",
   "Pago eliminado con éxito"⟩

/-- Resource configuration of the second, shadowed /pagos registration
(lines 1343-1476). -/
def pagosV2R : Resource :=
  ⟨["usuarioId", "monto", "fecha", "metodo"],
   "Faltan datos obligatorios: usuarioId, monto, fecha, metodo.",
   "Pago no encontrado.",
   "Pago actualizado con éxito",
   "Pago eliminado con éxito"⟩

/-- Resource configuration of /distribuidores (lines 731-864). -/
def distribuidoresR : Resource :=
  ⟨["nombre", "correo", "telefono", "direccion"],
   "Faltan datos obligatorios: nombre, correo, telefono, direccion.",
   "Distribuidor no encontrado.",
   "Distribuidor actualizado con éxito",
   "Distribuidor eliminado con éxito"⟩

/-- Resource configuration of /resenas (lines 884-1025). -/
def resenasR : Resource :=
  ⟨["usuarioId", "productoId", "calificacion", "comentario"],
   "Faltan datos obligatorios: usuarioId, productoId, calificacion, comentario.",
   "Reseña no encontrada.",
   "Reseña actualizada con éxito",
   "Reseña eliminada con éxito"⟩

/-- Resource configuration of /categorias (lines 1042-1175). -/
def categoriasR : Resource :=
  ⟨["nombre", "descripcion"],
   "Faltan datos obligatorios: nombre, descripcion.",
   "Categoría no encontrada.",
   "Categoría actualizada con éxito",
   "Categoría eliminada con éxito"⟩

/-- Resource configuration of /ubicaciones (lines 1192-1325). -/
def ubicacionesR : Resource :=
  ⟨["nombre", "direccion", "latitud", "longitud"],
   "Faltan datos obligatorios: nombre, direccion, latitud, longitud.",
   "Ubicación no encontrada.",
   "Ubicación actualizada con éxito",
   "Ubicación eliminada con éxito"⟩

/-- Resource configuration of /soporte (lines 1494-1627). -/
def soporteR : Resource :=
  ⟨["usuarioId", "descripcion", "fecha", "estado"],
   "Faltan datos obligatorios: usuarioId, descripcion, fecha, estado.",
   "Solicitud de soporte no encontrada.",
   "Solicitud actualizada con éxito",
   "Solicitud eliminada con éxito"⟩

/-- Resource configuration of /trabajadores (lines 1645-1778). -/
def trabajadoresR : Resource :=
  ⟨["nombre", "puesto", "salario", "fechaContratacion"],
   "Faltan datos obligatorios: nombre, puesto, salario, fechaContratacion.",
   "Trabajador no encontrado.",
   "Trabajador actualizado con éxito",
   "Trabajador eliminado con éxito"⟩

/-- Range-error message of both review handlers. -/
def ratingMsg : String := "La calificación debe estar entre 1 y 5."

/-- Handler of `POST /usuarios` (lines 120-134): presence-check nombre,
correo, rol; on success store them plus the server-computed registration
timestamp `fechaRegistro` (`new Date().toISOString()` is passed in as `now`).
Under the truthiness guard all three fields are defined, so `buildDoc` equals
the object literal `{ nombre, correo, rol }`. -/
def postUsuarios (c : Collection) (body : Payload) (now : String) : Collection × Response :=
  if !truthyOpt (alook body "nombre") || !truthyOpt (alook body "correo")
      || !truthyOpt (alook body "rol") then
    (c, ⟨400, Body.msg usuariosR.missingMsg⟩)
  else
    let nuevoUsuario := buildDoc usuariosR.fields body ++ [("fechaRegistro", JsonVal.str now)]
    let added := c.add nuevoUsuario
    (added.2, ⟨201, Body.doc added.1 nuevoUsuario⟩)

/-- Handler of `POST /resenas` (lines 884-903): usuarioId, productoId and
calificacion are truthiness-checked, comentario only definedness-checked
(`typeof comentario === "undefined"`); then the rating range 1..5 is
enforced with JavaScript comparisons. -/
def postResenas (c : Collection) (body : Payload) : Collection × Response :=
  if !truthyOpt (alook body "usuarioId") || !truthyOpt (alook body "productoId")
      || !truthyOpt (alook body "calificacion") || (alook body "comentario").isNone then
    (c, ⟨400, Body.msg resenasR.missingMsg⟩)
  else if jsLtNum (alook body "calificacion") 1 || jsGtNum (alook body "calificacion") 5 then
    (c, ⟨400, Body.msg ratingMsg⟩)
  else
    let d := buildDoc resenasR.fields body
    let added := c.add d
    (added.2, ⟨201, Body.doc added.1 d⟩)

/-- Handler of `PUT /resenas/:id` (lines 965-987): existence check first,
then the rating range check, then merge-update of the four fields. -/
def putResenas (c : Collection) (id : String) (body : Payload) : Collection × Response :=
  match c.find id with
  | none => (c, ⟨404, Body.msg resenasR.notFoundMsg⟩)
  | some _ =>
    if jsLtNum (alook body "calificacion") 1 || jsGtNum (alook body "calificacion") 5 then
      (c, ⟨400, Body.msg ratingMsg⟩)
    else
      (c.mergeUpdate id (buildDoc resenasR.fields body), ⟨200, Body.msg resenasR.updatedMsg⟩)

/-- Handler of `POST /ubicaciones` (lines 1192-1207): nombre and direccion
are truthiness-checked, latitud and longitud only compared against
`undefined` (`latitud === undefined`), so 0 is accepted. -/
def postUbicaciones (c : Collection) (body : Payload) : Collection × Response :=
  if !truthyOpt (alook body "nombre") || !truthyOpt (alook body "direccion")
      || (alook body "latitud").isNone || (alook body "longitud").isNone then
    (c, ⟨400, Body.msg ubicacionesR.missingMsg⟩)
  else
    let d := buildDoc ubicacionesR.fields body
    let added := c.add d
    (added.2, ⟨201, Body.doc added.1 d⟩)

/-- Handler of the first `POST /pagos` registration (lines 578-593). -/
def postPagos (c : Collection) (body : Payload) : Collection × Response :=
  simpleCreate pagosR c body

/-- Handler of the second `POST /pagos` registration (lines 1343-1358),
never reached under first-match dispatch. -/
def postPagosV2 (c : Collection) (body : Payload) : Collection × Response :=
  simpleCreate pagosV2R c body

/-- The ten resources of the API; the duplicated /pagos registration is not a
distinct resource (its handler `postPagosV2` is modelled separately). -/
inductive ResourceKind where
  | usuarios | maquinas | alquileres | pagos | distribuidores
  | resenas | categorias | ubicaciones | soporte | trabajadores

/-- Configuration of each resource. -/
def resourceOf : ResourceKind → Resource
  | .usuarios => usuariosR
  | .maquinas => maquinasR
  | .alquileres => alquileresR
  | .pagos => pagosR
  | .distribuidores => distribuidoresR
  | .resenas => resenasR
  | .categorias => categoriasR
  | .ubicaciones => ubicacionesR
  | .soporte => soporteR
  | .trabajadores => trabajadoresR

/-- Dispatch of `POST /{resource}`; `now` is the creation-time ISO timestamp,
used only by the usuarios handler. -/
def create (k : ResourceKind) (c : Collection) (body : Payload) (now : String) : Collection × Response :=
  match k with
  | .usuarios => postUsuarios c body now
  | .resenas => postResenas c body
  | .ubicaciones => postUbicaciones c body
  | .pagos => postPagos c body
  | k => simpleCreate (resourceOf k) c body

/-- Dispatch of `GET /{resource}/:id`. -/
def readOne (k : ResourceKind) (c : Collection) (id : String) : Response :=
  getById (resourceOf k) c id

/-- Dispatch of `PUT /{resource}/:id`; only resenas deviates from the
template (rating range check). -/
def updateOne (k : ResourceKind) (c : Collection) (id : String) (body : Payload) : Collection × Response :=
  match k with
  | .resenas => putResenas c id body
  | k => putById (resourceOf k) c id body

/-- Dispatch of `DELETE /{resource}/:id`. -/
def deleteOne (k : ResourceKind) (c : Collection) (id : String) : Collection × Response :=
  deleteById (resourceOf k) c id

/-- Required-field presence check of each create handler, stated positively:
truthiness for every field, except that resenas checks comentario and
ubicaciones checks latitud/longitud for definedness only. -/
def requiredOk (k : ResourceKind) (body : Payload) : Bool :=
  match k with
  | .resenas =>
    truthyOpt (alook body "usuarioId") && truthyOpt (alook body "productoId")
      && truthyOpt (alook body "calificacion") && (alook body "comentario").isSome
  | .ubicaciones =>
    truthyOpt (alook body "nombre") && truthyOpt (alook body "direccion")
      && (alook body "latitud").isSome && (alook body "longitud").isSome
  | k => requiredOkSimple (resourceOf k) body

/-- Resource-specific extra validation on create: trivial everywhere except
the review rating range. -/
def extraOk (k : ResourceKind) (body : Payload) : Bool :=
  match k with
  | .resenas =>
    !(jsLtNum (alook body "calificacion") 1 || jsGtNum (alook body "calificacion") 5)
  | _ => true

/-- Document stored by a successful create: the declared fields of the body,
verbatim; only usuarios adds a server-side default (fechaRegistro). -/
def storedDoc (k : ResourceKind) (body : Payload) (now : String) : Doc :=
  match k with
  | .usuarios => buildDoc usuariosR.fields body ++ [("fechaRegistro", JsonVal.str now)]
  | k => buildDoc (resourceOf k).fields body

/-- Rating check of `PUT /resenas/:id`, trivial for the other resources. -/
def updateExtraOk (k : ResourceKind) (body : Payload) : Bool :=
  match k with
  | .resenas =>
    !(jsLtNum (alook body "calificacion") 1 || jsGtNum (alook body "calificacion") 5)
  | _ => true

/-- Registration-order table of the `POST` routes of src/server.js (the path
and the handler of each `app.post` call, in source order); `now` is the
ambient creation timestamp. -/
def postRoutes (now : String) : List (String × (Collection → Payload → Collection × Response)) :=
  [("/usuarios", fun c b => postUsuarios c b now),
   ("/maquinas", simpleCreate maquinasR),
   ("/alquileres", simpleCreate alquileresR),
   ("/pagos", postPagos),
   ("/distribuidores", simpleCreate distribuidoresR),
   ("/resenas", postResenas),
   ("/categorias", simpleCreate categoriasR),
   ("/ubicaciones", postUbicaciones),
   ("/pagos", postPagosV2),
   ("/soporte", simpleCreate soporteR),
   ("/trabajadores", simpleCreate trabajadoresR)]

/-- Modelled from the spec: the external router (Express, out of scope)
routes an inbound request "to the handler matching {method, resource path}";
with duplicate registrations the first registered match wins, which is
Express's documented first-match dispatch. -/
def dispatchPost (now : String) (path : String) : Option (Collection → Payload → Collection × Response) :=
  ((postRoutes now).find? (fun rt => rt.1 == path)).map (fun rt => rt.2)

/-! Concrete request bodies and store states used as test inputs. -/

/-- Valid usuarios create body (the spec's own example scenario). -/
def bodyUsuario : Payload :=
  [("nombre", JsonVal.str "Ana"), ("correo", JsonVal.str "ana@x.com"),
   ("rol", JsonVal.str "admin")]

/-- Valid maquinas create body. -/
def bodyMaquina : Payload :=
  [("nombre", JsonVal.str "Taladro"), ("descripcion", JsonVal.str "Taladro percutor"),
   ("precio", JsonVal.num 100),
   ("distribuidor", JsonVal.obj [("id", JsonVal.str "d1"), ("nombre", JsonVal.str "ACME")])]

/-- Valid maquinas create body carrying an extra, undeclared field. -/
def bodyMaquinaExtra : Payload := bodyMaquina ++ [("edad", JsonVal.num 7)]

/-- Maquinas create body whose required numeric field precio is 0. -/
def bodyMaquinaPrecio0 : Payload :=
  [("nombre", JsonVal.str "Taladro"), ("descripcion", JsonVal.str "Taladro percutor"),
   ("precio", JsonVal.num 0),
   ("distribuidor", JsonVal.obj [("id", JsonVal.str "d1")])]

/-- Trabajadores create body whose required numeric field salario is 0. -/
def bodyTrabajadorSalario0 : Payload :=
  [("nombre", JsonVal.str "Luis"), ("puesto", JsonVal.str "tecnico"),
   ("salario", JsonVal.num 0), ("fechaContratacion", JsonVal.str "2024-01-01")]

/-- Resenas body with every required field present and rating `r`. -/
def bodyResena (r : Int) : Payload :=
  [("usuarioId", JsonVal.str "u1"), ("productoId", JsonVal.str "p1"),
   ("calificacion", JsonVal.num r), ("comentario", JsonVal.str "ok")]

/-- Ubicaciones body with both coordinates equal to 0. -/
def bodyUbicacionZero : Payload :=
  [("nombre", JsonVal.str "Central"), ("direccion", JsonVal.str "Av. Siempre Viva 123"),
   ("latitud", JsonVal.num 0), ("longitud", JsonVal.num 0)]

/-- Payment body matching the second /pagos registration's field set, with no
alquilerId. -/
def bodyPagoV2 : Payload :=
  [("usuarioId", JsonVal.str "u1"), ("monto", JsonVal.num 50),
   ("fecha", JsonVal.str "2024-05-01"), ("metodo", JsonVal.str "tarjeta")]

/-- Usuarios update body with the required field nombre missing. -/
def bodyUsuarioSinNombre : Payload :=
  [("correo", JsonVal.str "nueva@x.com"), ("rol", JsonVal.str "admin")]

/-- Resenas update body with the required field calificacion missing. -/
def bodyResenaSinCalif : Payload := [("comentario", JsonVal.str "actualizado")]

/-- A stored user document. -/
def usuarioDoc : Doc :=
  [("nombre", JsonVal.str "Ana"), ("correo", JsonVal.str "ana@x.com"),
   ("rol", JsonVal.str "user")]

/-- A usuarios collection holding one document at id u1. -/
def colUsuario : Collection := ⟨[("u1", usuarioDoc)], 0⟩

/-- A stored review document with rating 3. -/
def resenaDoc : Doc :=
  [("usuarioId", JsonVal.str "u1"), ("productoId", JsonVal.str "p1"),
   ("calificacion", JsonVal.num 3), ("comentario", JsonVal.str "bien")]

/-- A resenas collection holding one document at id r1. -/
def colResena : Collection := ⟨[("r1", resenaDoc)], 0⟩

/-! Lemmas about lookup, the built update/insert objects, and the store. -/

theorem alook_append {α : Type} (l1 l2 : List (String × α)) (k : String) :
    alook (l1 ++ l2) k =
      match alook l1 k with
      | some v => some v
      | none => alook l2 k := by
  induction l1 with
  | nil => simp [alook]
  | cons kv rest ih =>
    cases h : kv.1 == k <;> simp [alook, h, ih]

theorem alook_eq_none {α : Type} {l : List (String × α)} {k : String}
    (h : ∀ p ∈ l, p.1 ≠ k) : alook l k = none := by
  induction l with
  | nil => rfl
  | cons kv rest ih =>
    have hk : kv.1 ≠ k := h kv (List.mem_cons_self _ _)
    have hb : (kv.1 == k) = false := by simpa using hk
    simp only [alook, hb, if_neg]
    exact ih (fun p hp => h p (List.mem_cons_of_mem _ hp))

theorem buildDoc_cons (g : String) (t : List String) (body : Payload) :
    buildDoc (g :: t) body =
      match alook body g with
      | some v => (g, v) :: buildDoc t body
      | none => buildDoc t body := by
  cases hg : alook body g <;> simp [buildDoc, List.filterMap_cons, hg]

theorem alook_buildDoc_of_not_mem {fields : List String} {body : Payload} {f : String}
    (hf : f ∉ fields) : alook (buildDoc fields body) f = none := by
  induction fields with
  | nil => rfl
  | cons g t ih =>
    have hgf : g ≠ f := fun h => hf (h ▸ List.mem_cons_self _ _)
    have hb : (g == f) = false := by simpa using hgf
    have hft : f ∉ t := fun h => hf (List.mem_cons_of_mem _ h)
    cases hg : alook body g <;> simp [buildDoc_cons, hg, alook, hb, ih hft]

theorem alook_buildDoc {fields : List String} {body : Payload} {f : String}
    (hnd : fields.Nodup) (hf : f ∈ fields) :
    alook (buildDoc fields body) f = alook body f := by
  induction fields with
  | nil => cases hf
  | cons g t ih =>
    rcases List.mem_cons.mp hf with rfl | hft
    · cases hb : alook body f with
      | some v => simp [buildDoc_cons, hb, alook]
      | none =>
        have hnt : f ∉ t := (List.nodup_cons.mp hnd).1
        simpa [buildDoc_cons, hb] using alook_buildDoc_of_not_mem hnt
    · have hgf : g ≠ f := fun h => ((List.nodup_cons.mp hnd).1 (h ▸ hft))
      have hb : (g == f) = false := by simpa using hgf
      cases hg : alook body g <;>
        simp [buildDoc_cons, hg, alook, hb, ih (List.nodup_cons.mp hnd).2 hft]

theorem alook_buildDoc_of_none {fields : List String} {body : Payload} {f : String}
    (h : alook body f = none) : alook (buildDoc fields body) f = none := by
  induction fields with
  | nil => rfl
  | cons g t ih =>
    cases hb : (g == f) with
    | true =>
      have : g = f := eq_of_beq hb
      subst this
      simp [buildDoc_cons, h, ih]
    | false =>
      cases hg : alook body g <;> simp [buildDoc_cons, hg, alook, hb, ih]

theorem alook_map_overwrite (d : Doc) (upd : List (String × JsonVal)) (f : String) :
    alook (d.map (fun kv =>
        match alook upd kv.1 with
        | some v => (kv.1, v)
        | none => kv)) f
      = match alook d f with
        | none => none
        | some v =>
          match alook upd f with
          | some w => some w
          | none => some v := by
  induction d with
  | nil => rfl
  | cons kv rest ih =>
    cases h : kv.1 == f with
    | false => cases hu : alook upd kv.1 <;> simp [alook, h, hu, ih]
    | true =>
      have : kv.1 = f := eq_of_beq h
      subst this
      cases hu : alook upd kv.1 <;> simp [alook, h, hu]

theorem alook_filter_isNone (d : Doc) (upd : List (String × JsonVal)) (f : String) :
    alook (upd.filter (fun kv => (alook d kv.1).isNone)) f
      = if (alook d f).isNone then alook upd f else none := by
  induction upd with
  | nil => simp [alook]
  | cons kv rest ih =>
    cases h : kv.1 == f with
    | false =>
      cases hk : (alook d kv.1).isNone <;> simp [List.filter, hk, alook, h, ih]
    | true =>
      have : kv.1 = f := eq_of_beq h
      subst this
      cases hk : (alook d kv.1).isNone <;> simp [List.filter, hk, alook, ih]

theorem alook_mergeDoc (d upd : Doc) (f : String) :
    alook (mergeDoc d upd) f
      = match alook d f, alook upd f with
        | some _, some w => some w
        | some v, none => some v
        | none, o => o := by
  rw [mergeDoc, alook_append, alook_map_overwrite, alook_filter_isNone]
  cases hd : alook d f <;> cases hu : alook upd f <;> simp [hd, hu]

theorem alook_map_ite (l : List (String × Doc)) (id : String) (upd : List (String × JsonVal)) :
    alook (l.map (fun p => if p.1 == id then (p.1, mergeDoc p.2 upd) else p)) id
      = (alook l id).map (fun d => mergeDoc d upd) := by
  induction l with
  | nil => rfl
  | cons p rest ih =>
    cases h : p.1 == id with
    | true => simp [alook, h]
    | false =>
      simp [alook, h]
      simpa using ih

theorem find_mergeUpdate (c : Collection) (id : String) (upd : List (String × JsonVal)) :
    (c.mergeUpdate id upd).find id = (c.find id).map (fun d => mergeDoc d upd) := by
  rcases c with ⟨docs, n⟩
  simpa [Collection.mergeUpdate, Collection.find] using alook_map_ite docs id upd

theorem alook_filter_ne (l : List (String × Doc)) (id : String) :
    alook (l.filter (fun p => !(p.1 == id))) id = none := by
  induction l with
  | nil => rfl
  | cons p rest ih => cases h : p.1 == id <;> simp [List.filter, h, alook, ih]

theorem find_erase (c : Collection) (id : String) : (c.erase id).find id = none := by
  rcases c with ⟨docs, n⟩
  simpa [Collection.erase, Collection.find] using alook_filter_ne docs id

theorem find_add (c : Collection) (d : Doc)
    (h : ∀ p ∈ c.docs, p.1 ≠ genId c.nextId) :
    (c.add d).2.find (genId c.nextId) = some d := by
  show alook (c.docs ++ [(genId c.nextId, d)]) (genId c.nextId) = some d
  rw [alook_append, alook_eq_none h]
  simp [alook]

theorem isSome_of_truthyOpt {o : Option JsonVal} (h : truthyOpt o = true) :
    o.isSome = true := by
  cases o with
  | none => simp [truthyOpt] at h
  | some v => rfl

theorem isSome_of_all_truthy {fs : List String} {body : Payload} {f : String}
    (h : fs.all (fun g => truthyOpt (alook body g)) = true) (hf : f ∈ fs) :
    (alook body f).isSome = true :=
  isSome_of_truthyOpt (List.all_eq_true.mp h f hf)

theorem fields_nodup (k : ResourceKind) : (resourceOf k).fields.Nodup := by
  cases k <;> decide

theorem isSome_of_requiredOk (k : ResourceKind) (body : Payload)
    (hreq : requiredOk k body = true) {f : String} (hf : f ∈ (resourceOf k).fields) :
    (alook body f).isSome = true := by
  cases k
  case resenas =>
    simp only [requiredOk, Bool.and_eq_true] at hreq
    obtain ⟨⟨⟨h1, h2⟩, h3⟩, h4⟩ := hreq
    simp only [resourceOf, resenasR, List.mem_cons, List.not_mem_nil, or_false] at hf
    rcases hf with rfl | rfl | rfl | rfl
    · exact isSome_of_truthyOpt h1
    · exact isSome_of_truthyOpt h2
    · exact isSome_of_truthyOpt h3
    · exact h4
  case ubicaciones =>
    simp only [requiredOk, Bool.and_eq_true] at hreq
    obtain ⟨⟨⟨h1, h2⟩, h3⟩, h4⟩ := hreq
    simp only [resourceOf, ubicacionesR, List.mem_cons, List.not_mem_nil, or_false] at hf
    rcases hf with rfl | rfl | rfl | rfl
    · exact isSome_of_truthyOpt h1
    · exact isSome_of_truthyOpt h2
    · exact h3
    · exact h4
  all_goals exact isSome_of_all_truthy hreq hf

theorem alook_storedDoc (k : ResourceKind) (body : Payload) (now : String)
    (hreq : requiredOk k body = true) {f : String} (hf : f ∈ (resourceOf k).fields) :
    alook (storedDoc k body now) f = alook body f := by
  cases k
  case usuarios =>
    obtain ⟨v, hv⟩ := Option.isSome_iff_exists.mp (isSome_of_requiredOk .usuarios body hreq hf)
    have hnd : usuariosR.fields.Nodup := fields_nodup .usuarios
    have hf2 : f ∈ usuariosR.fields := hf
    show alook (buildDoc usuariosR.fields body ++ [("fechaRegistro", JsonVal.str now)]) f
      = alook body f
    rw [alook_append, alook_buildDoc hnd hf2, hv]
  all_goals exact alook_buildDoc (fields_nodup _) hf

/-- Characterization of every create handler: reject with 400 and the full
required-field message when the presence check fails; reject with 400 and the
range message when the resource-specific extra validation fails (reviews
only); otherwise insert exactly one document and answer 201 with the assigned
identifier and the stored fields. -/
theorem create_spec (k : ResourceKind) (c : Collection) (body : Payload) (now : String) :
    create k c body now =
      if requiredOk k body then
        if extraOk k body then
          (⟨c.docs ++ [(genId c.nextId, storedDoc k body now)], c.nextId + 1⟩,
           ⟨201, Body.doc (genId c.nextId) (storedDoc k body now)⟩)
        else (c, ⟨400, Body.msg ratingMsg⟩)
      else (c, ⟨400, Body.msg (resourceOf k).missingMsg⟩) := by
  cases k
  case usuarios =>
    cases h1 : truthyOpt (alook body "nombre") <;>
    cases h2 : truthyOpt (alook body "correo") <;>
    cases h3 : truthyOpt (alook body "rol") <;>
      simp [create, postUsuarios, requiredOk, requiredOkSimple, extraOk, storedDoc,
            resourceOf, usuariosR, Collection.add, h1, h2, h3]
  case resenas =>
    cases h1 : truthyOpt (alook body "usuarioId") <;>
    cases h2 : truthyOpt (alook body "productoId") <;>
    cases h3 : truthyOpt (alook body "calificacion") <;>
    cases h4 : alook body "comentario" <;>
    cases h5 : (jsLtNum (alook body "calificacion") 1 || jsGtNum (alook body "calificacion") 5) <;>
      simp [create, postResenas, requiredOk, extraOk, storedDoc,
            resourceOf, resenasR, Collection.add, h1, h2, h3, h4, h5]
  case ubicaciones =>
    cases h1 : truthyOpt (alook body "nombre") <;>
    cases h2 : truthyOpt (alook body "direccion") <;>
    cases h3 : alook body "latitud" <;>
    cases h4 : alook body "longitud" <;>
      simp [create, postUbicaciones, requiredOk, extraOk, storedDoc,
            resourceOf, ubicacionesR, Collection.add, h1, h2, h3, h4]
  all_goals
    simp [create, postPagos, simpleCreate, requiredOk, extraOk, storedDoc,
          resourceOf, Collection.add]

/-- Characterization of every read handler. -/
theorem read_spec (k : ResourceKind) (c : Collection) (id : String) :
    readOne k c id =
      match c.find id with
      | none => ⟨404, Body.msg (resourceOf k).notFoundMsg⟩
      | some d => ⟨200, Body.doc id d⟩ := by
  cases hfind : c.find id <;> simp [readOne, getById, hfind]

/-- Characterization of every update handler: existence check first, then
(for reviews only) the rating range check, then a merge-update of the
declared fields that are defined in the body. -/
theorem update_spec (k : ResourceKind) (c : Collection) (id : String) (body : Payload) :
    updateOne k c id body =
      match c.find id with
      | none => (c, ⟨404, Body.msg (resourceOf k).notFoundMsg⟩)
      | some _ =>
        if updateExtraOk k body then
          (c.mergeUpdate id (buildDoc (resourceOf k).fields body),
           ⟨200, Body.msg (resourceOf k).updatedMsg⟩)
        else (c, ⟨400, Body.msg ratingMsg⟩) := by
  cases k
  case resenas =>
    cases hfind : c.find id with
    | none => simp [updateOne, putResenas, resourceOf, hfind]
    | some d =>
      cases h5 : (jsLtNum (alook body "calificacion") 1 || jsGtNum (alook body "calificacion") 5) <;>
        simp [updateOne, putResenas, updateExtraOk, resourceOf, hfind, h5]
  all_goals
    cases hfind : c.find id <;>
      simp [updateOne, putById, updateExtraOk, resourceOf, hfind]

/-- Characterization of every delete handler. -/
theorem delete_spec (k : ResourceKind) (c : Collection) (id : String) :
    deleteOne k c id =
      match c.find id with
      | none => (c, ⟨404, Body.msg (resourceOf k).notFoundMsg⟩)
      | some _ => (c.erase id, ⟨200, Body.msg (resourceOf k).deletedMsg⟩) := by
  cases hfind : c.find id <;> simp [deleteOne, deleteById, hfind]

/-! Claims. -/

/-- Claim C1, counterexample.  The claim promises, for any payload whose
required fields are all truthy, a 201 response whose body is the identifier
plus all submitted fields verbatim.  Both parts fail on the code: a maquinas
create with an extra submitted field `edad` answers 201 but drops `edad`
from the stored document and the response body, and a resenas create whose
required fields are all truthy but whose rating is 7 answers 400, not 201. -/
theorem claim1_counterexample :
    create .maquinas emptyCol bodyMaquinaExtra "T"
        = (⟨[("doc0", bodyMaquina)], 1⟩, ⟨201, Body.doc "doc0" bodyMaquina⟩)
    ∧ alook bodyMaquinaExtra "edad" = some (JsonVal.num 7)
    ∧ alook bodyMaquina "edad" = none
    ∧ requiredOk .resenas (bodyResena 7) = true
    ∧ create .resenas emptyCol (bodyResena 7) "T" = (emptyCol, ⟨400, Body.msg ratingMsg⟩) :=
  ⟨rfl, rfl, rfl, rfl, rfl⟩

/-- Claim C1, amended.  For every resource and every payload passing that
resource's presence check and its extra validation (the review rating
range), create inserts exactly one document and answers 201 with the
store-assigned identifier plus the resource's declared fields taken verbatim
from the payload; no server-side default is applied except the user
resource's fechaRegistro creation timestamp. -/
theorem claim1_create_valid (k : ResourceKind) (c : Collection) (body : Payload)
    (now : String) (hreq : requiredOk k body = true) (hextra : extraOk k body = true) :
    create k c body now
        = (⟨c.docs ++ [(genId c.nextId, storedDoc k body now)], c.nextId + 1⟩,
           ⟨201, Body.doc (genId c.nextId) (storedDoc k body now)⟩)
    ∧ (∀ f ∈ (resourceOf k).fields, alook (storedDoc k body now) f = alook body f)
    ∧ (k ≠ .usuarios → storedDoc k body now = buildDoc (resourceOf k).fields body)
    ∧ alook (storedDoc .usuarios body now) "fechaRegistro" = some (JsonVal.str now) := by
  refine ⟨?_, ?_, ?_, ?_⟩
  · rw [create_spec, if_pos hreq, if_pos hextra]
  · intro f hf
    exact alook_storedDoc k body now hreq hf
  · intro hk
    cases k <;> first | exact absurd rfl hk | rfl
  · show alook (buildDoc usuariosR.fields body ++ [("fechaRegistro", JsonVal.str now)])
        "fechaRegistro" = some (JsonVal.str now)
    rw [alook_append, alook_buildDoc_of_not_mem (by decide)]
    simp [alook]

/-- Claim C1, witness: a valid maquinas create on the empty collection. -/
theorem claim1_witness :
    create .maquinas emptyCol bodyMaquina "T"
      = (⟨[("doc0", storedDoc .maquinas bodyMaquina "T")], 1⟩,
         ⟨201, Body.doc "doc0" (storedDoc .maquinas bodyMaquina "T")⟩) :=
  (claim1_create_valid .maquinas emptyCol bodyMaquina "T" rfl rfl).1

/-- Claim C2: for every resource, a create whose required-field presence
check fails (truthiness per field, with the resource-specific definedness
exceptions) answers 400 with the message naming the full required-field set
and inserts nothing; in particular a maquinas precio of 0 and a trabajadores
salario of 0 are rejected, and empty string, 0, false, null and undefined
are all non-present. -/
theorem claim2_create_missing :
    (∀ (k : ResourceKind) (c : Collection) (body : Payload) (now : String),
        requiredOk k body = false →
          create k c body now = (c, ⟨400, Body.msg (resourceOf k).missingMsg⟩))
    ∧ requiredOk .maquinas bodyMaquinaPrecio0 = false
    ∧ create .maquinas emptyCol bodyMaquinaPrecio0 "T"
        = (emptyCol, ⟨400, Body.msg maquinasR.missingMsg⟩)
    ∧ requiredOk .trabajadores bodyTrabajadorSalario0 = false
    ∧ create .trabajadores emptyCol bodyTrabajadorSalario0 "T"
        = (emptyCol, ⟨400, Body.msg trabajadoresR.missingMsg⟩)
    ∧ truthy (JsonVal.str "") = false
    ∧ truthy (JsonVal.num 0) = false
    ∧ truthy (JsonVal.boolean false) = false
    ∧ truthy JsonVal.null = false
    ∧ truthyOpt none = false := by
  refine ⟨?_, rfl, rfl, rfl, rfl, rfl, rfl, rfl, rfl, rfl⟩
  intro k c body now h
  rw [create_spec]
  simp [h]

/-- Claim C2, witness: the maquinas create with precio 0 is rejected with
the full required-field message and the store is unchanged. -/
theorem claim2_witness :
    create .maquinas emptyCol bodyMaquinaPrecio0 "T"
      = (emptyCol, ⟨400, Body.msg maquinasR.missingMsg⟩) :=
  claim2_create_missing.1 .maquinas emptyCol bodyMaquinaPrecio0 "T" rfl

/-- Claim C3, counterexample.  The claim promises that a read immediately
after a create returns exactly the submitted fields plus the identifier; for
usuarios the read also returns the server-added fechaRegistro, which was not
submitted. -/
theorem claim3_counterexample :
    readOne .usuarios (create .usuarios emptyCol bodyUsuario "2024-05-01T00:00:00.000Z").1 "doc0"
        = ⟨200, Body.doc "doc0"
            (bodyUsuario ++ [("fechaRegistro", JsonVal.str "2024-05-01T00:00:00.000Z")])⟩
    ∧ alook bodyUsuario "fechaRegistro" = none :=
  ⟨rfl, rfl⟩

/-- Claim C3, amended.  For every resource, reading the identifier assigned
by an immediately preceding successful create answers 200 with exactly the
fields the create stored — the same body the create response carried: the
declared-field projection of the payload plus, for usuarios, the server-added
fechaRegistro. -/
theorem claim3_read_after_create (k : ResourceKind) (c : Collection) (body : Payload)
    (now : String) (hreq : requiredOk k body = true) (hextra : extraOk k body = true)
    (hfresh : ∀ p ∈ c.docs, p.1 ≠ genId c.nextId) :
    readOne k (create k c body now).1 (genId c.nextId)
        = ⟨200, Body.doc (genId c.nextId) (storedDoc k body now)⟩
    ∧ (create k c body now).2 = ⟨201, Body.doc (genId c.nextId) (storedDoc k body now)⟩ := by
  rw [create_spec, if_pos hreq, if_pos hextra]
  have hfind : (Collection.mk (c.docs ++ [(genId c.nextId, storedDoc k body now)]) (c.nextId + 1)).find
      (genId c.nextId) = some (storedDoc k body now) := by
    simpa [Collection.add] using find_add c (storedDoc k body now) hfresh
  constructor
  · rw [read_spec]
    show (match (Collection.mk (c.docs ++ [(genId c.nextId, storedDoc k body now)]) (c.nextId + 1)).find
        (genId c.nextId) with
      | none => (⟨404, Body.msg (resourceOf k).notFoundMsg⟩ : Response)
      | some d => ⟨200, Body.doc (genId c.nextId) d⟩)
      = ⟨200, Body.doc (genId c.nextId) (storedDoc k body now)⟩
    rw [hfind]
  · rfl

/-- Claim C3, witness: create-then-read of the spec's usuarios example. -/
theorem claim3_witness :
    readOne .usuarios (create .usuarios emptyCol bodyUsuario "T").1 (genId emptyCol.nextId)
      = ⟨200, Body.doc (genId emptyCol.nextId) (storedDoc .usuarios bodyUsuario "T")⟩ :=
  (claim3_read_after_create .usuarios emptyCol bodyUsuario "T" rfl rfl
    (by intro p hp; simp [emptyCol] at hp)).1

/-- Claim C4, counterexample.  The claim promises HTTP 200 for every update
of an existing document; a resenas update of an existing document with
rating 6 answers 400 and writes nothing. -/
theorem claim4_counterexample :
    colResena.find "r1" = some resenaDoc
    ∧ updateOne .resenas colResena "r1" [("calificacion", JsonVal.num 6)]
        = (colResena, ⟨400, Body.msg ratingMsg⟩) :=
  ⟨rfl, rfl⟩

/-- Claim C4, amended.  For every resource and every existing document, an
update whose resource-specific validation passes (trivial except the review
rating range) answers 200 with the fixed success message and merge-updates
the document: exactly the declared fields that are defined in the payload
are overwritten, the identifier keeps addressing the document, and every
stored field not named in the payload is preserved. -/
theorem claim4_update_merge (k : ResourceKind) (c : Collection) (id : String)
    (body : Payload) (d : Doc) (hfind : c.find id = some d)
    (hextra : updateExtraOk k body = true) :
    updateOne k c id body
        = (c.mergeUpdate id (buildDoc (resourceOf k).fields body),
           ⟨200, Body.msg (resourceOf k).updatedMsg⟩)
    ∧ (c.mergeUpdate id (buildDoc (resourceOf k).fields body)).find id
        = some (mergeDoc d (buildDoc (resourceOf k).fields body))
    ∧ (∀ f, alook body f = none →
        alook (mergeDoc d (buildDoc (resourceOf k).fields body)) f = alook d f)
    ∧ (∀ f v, f ∈ (resourceOf k).fields → alook body f = some v →
        alook (mergeDoc d (buildDoc (resourceOf k).fields body)) f = some v) := by
  refine ⟨?_, ?_, ?_, ?_⟩
  · rw [update_spec, hfind]
    simp [hextra]
  · rw [find_mergeUpdate, hfind]
    rfl
  · intro f hf
    rw [alook_mergeDoc, alook_buildDoc_of_none hf]
    cases alook d f <;> rfl
  · intro f v hfm hv
    rw [alook_mergeDoc, alook_buildDoc (fields_nodup k) hfm, hv]
    cases alook d f <;> rfl

/-- Claim C4, witness: a usuarios update of an existing document. -/
theorem claim4_witness :
    updateOne .usuarios colUsuario "u1" bodyUsuarioSinNombre
      = (colUsuario.mergeUpdate "u1" (buildDoc usuariosR.fields bodyUsuarioSinNombre),
         ⟨200, Body.msg usuariosR.updatedMsg⟩) :=
  (claim4_update_merge .usuarios colUsuario "u1" bodyUsuarioSinNombre usuarioDoc rfl rfl).1

/-- Claim C5: for every resource and every identifier absent from the
collection, read, update and delete each answer 404 with the resource's
not-found message and leave the store unchanged; for updates the existence
check precedes validation, so a resenas update of an unknown identifier with
the out-of-range rating 6 answers 404, not 400, and writes nothing. -/
theorem claim5_not_found :
    (∀ (k : ResourceKind) (c : Collection) (id : String) (body : Payload),
        c.find id = none →
          readOne k c id = ⟨404, Body.msg (resourceOf k).notFoundMsg⟩
          ∧ updateOne k c id body = (c, ⟨404, Body.msg (resourceOf k).notFoundMsg⟩)
          ∧ deleteOne k c id = (c, ⟨404, Body.msg (resourceOf k).notFoundMsg⟩))
    ∧ updateOne .resenas emptyCol "nope" [("calificacion", JsonVal.num 6)]
        = (emptyCol, ⟨404, Body.msg resenasR.notFoundMsg⟩) := by
  constructor
  · intro k c id body h
    refine ⟨?_, ?_, ?_⟩
    · rw [read_spec, h]
    · rw [update_spec, h]
    · rw [delete_spec, h]
  · rfl

/-- Claim C5, witness: reading an unknown usuarios identifier. -/
theorem claim5_witness :
    readOne .usuarios emptyCol "ghost" = ⟨404, Body.msg usuariosR.notFoundMsg⟩ :=
  (claim5_not_found.1 .usuarios emptyCol "ghost" [] rfl).1

/-- Claim C6: for every resource and every existing document, delete answers
200 with the fixed message and removes the document, after which a read of
the same identifier answers 404 and a second delete also answers 404, since
existence is re-checked on every delete. -/
theorem claim6_delete (k : ResourceKind) (c : Collection) (id : String) (d : Doc)
    (hfind : c.find id = some d) :
    deleteOne k c id = (c.erase id, ⟨200, Body.msg (resourceOf k).deletedMsg⟩)
    ∧ (c.erase id).find id = none
    ∧ readOne k (c.erase id) id = ⟨404, Body.msg (resourceOf k).notFoundMsg⟩
    ∧ deleteOne k (c.erase id) id = (c.erase id, ⟨404, Body.msg (resourceOf k).notFoundMsg⟩) := by
  have he : (c.erase id).find id = none := find_erase c id
  refine ⟨?_, he, ?_, ?_⟩
  · rw [delete_spec, hfind]
  · rw [read_spec, he]
  · rw [delete_spec, he]

/-- Claim C6, witness: delete, re-read and re-delete of an existing user. -/
theorem claim6_witness :
    deleteOne .usuarios colUsuario "u1"
      = (colUsuario.erase "u1", ⟨200, Body.msg usuariosR.deletedMsg⟩) :=
  (claim6_delete .usuarios colUsuario "u1" usuarioDoc rfl).1

/-- Claim C7: on the review resource the rating bound 1..5 is inclusive and
enforced on both create and update of an existing document: rating 0 and 6
answer 400 with no write (on create, 0 already fails the truthiness presence
check; 6 fails the range check), while ratings 1 and 5 succeed on both
operations. -/
theorem claim7_rating_bounds :
    (∀ c : Collection, postResenas c (bodyResena 0) = (c, ⟨400, Body.msg resenasR.missingMsg⟩))
    ∧ (∀ c : Collection, postResenas c (bodyResena 6) = (c, ⟨400, Body.msg ratingMsg⟩))
    ∧ (∀ c : Collection, postResenas c (bodyResena 1)
        = (⟨c.docs ++ [(genId c.nextId, bodyResena 1)], c.nextId + 1⟩,
           ⟨201, Body.doc (genId c.nextId) (bodyResena 1)⟩))
    ∧ (∀ c : Collection, postResenas c (bodyResena 5)
        = (⟨c.docs ++ [(genId c.nextId, bodyResena 5)], c.nextId + 1⟩,
           ⟨201, Body.doc (genId c.nextId) (bodyResena 5)⟩))
    ∧ putResenas colResena "r1" (bodyResena 0) = (colResena, ⟨400, Body.msg ratingMsg⟩)
    ∧ putResenas colResena "r1" (bodyResena 6) = (colResena, ⟨400, Body.msg ratingMsg⟩)
    ∧ putResenas colResena "r1" (bodyResena 1)
        = (colResena.mergeUpdate "r1" (bodyResena 1), ⟨200, Body.msg resenasR.updatedMsg⟩)
    ∧ putResenas colResena "r1" (bodyResena 5)
        = (colResena.mergeUpdate "r1" (bodyResena 5), ⟨200, Body.msg resenasR.updatedMsg⟩) :=
  ⟨fun _ => rfl, fun _ => rfl, fun _ => rfl, fun _ => rfl, rfl, rfl, rfl, rfl⟩

/-- Claim C8: a ubicaciones create with latitud 0 and longitud 0 (and the
other required fields present) succeeds with 201 and inserts the document:
the coordinates are checked for definedness, not truthiness (0 is falsy yet
defined, and the plain truthiness check would have rejected this body). -/
theorem claim8_location_zero :
    (∀ c : Collection, postUbicaciones c bodyUbicacionZero
        = (⟨c.docs ++ [(genId c.nextId, bodyUbicacionZero)], c.nextId + 1⟩,
           ⟨201, Body.doc (genId c.nextId) bodyUbicacionZero⟩))
    ∧ truthy (JsonVal.num 0) = false
    ∧ (alook bodyUbicacionZero "latitud").isSome = true
    ∧ (alook bodyUbicacionZero "longitud").isSome = true
    ∧ requiredOk .ubicaciones bodyUbicacionZero = true
    ∧ requiredOkSimple ubicacionesR bodyUbicacionZero = false :=
  ⟨fun _ => rfl, rfl, rfl, rfl, rfl, rfl⟩

/-- Claim C9, counterexample.  The claim promises that every resource's
update re-validates the required-field set before writing; in fact a
usuarios update of an existing document with nombre missing answers 200 and
writes the supplied fields through, and a resenas update with calificacion
absent does the same (the rating range check passes on undefined). -/
theorem claim9_counterexample :
    alook bodyUsuarioSinNombre "nombre" = none
    ∧ updateOne .usuarios colUsuario "u1" bodyUsuarioSinNombre
        = (colUsuario.mergeUpdate "u1" (buildDoc usuariosR.fields bodyUsuarioSinNombre),
           ⟨200, Body.msg usuariosR.updatedMsg⟩)
    ∧ (updateOne .usuarios colUsuario "u1" bodyUsuarioSinNombre).1.find "u1"
        = some [("nombre", JsonVal.str "Ana"), ("correo", JsonVal.str "nueva@x.com"),
                ("rol", JsonVal.str "admin")]
    ∧ alook bodyResenaSinCalif "calificacion" = none
    ∧ updateOne .resenas colResena "r1" bodyResenaSinCalif
        = (colResena.mergeUpdate "r1" (buildDoc resenasR.fields bodyResenaSinCalif),
           ⟨200, Body.msg resenasR.updatedMsg⟩) :=
  ⟨rfl, rfl, rfl, rfl, rfl⟩

/-- Claim C9, amended.  No resource re-validates the required-field set on
update: outside resenas an update can only answer 404 or 200, never a
validation 400, and a resenas update of an existing document whose payload
omits calificacion passes the rating check and merge-updates the supplied
fields, leaving the missing ones unchanged. -/
theorem claim9_update_no_revalidation :
    (∀ (k : ResourceKind) (c : Collection) (id : String) (body : Payload),
        k ≠ .resenas →
          (updateOne k c id body).2.status = 404 ∨ (updateOne k c id body).2.status = 200)
    ∧ (∀ (c : Collection) (id : String) (body : Payload) (d : Doc),
        c.find id = some d → alook body "calificacion" = none →
          updateOne .resenas c id body
            = (c.mergeUpdate id (buildDoc resenasR.fields body),
               ⟨200, Body.msg resenasR.updatedMsg⟩)) := by
  constructor
  · intro k c id body hk
    rw [update_spec]
    cases hfind : c.find id with
    | none => left; rfl
    | some d =>
      have hex : updateExtraOk k body = true := by
        cases k <;> first | exact absurd rfl hk | rfl
      rw [if_pos hex]
      right
      rfl
  · intro c id body d hfind hcal
    have hex : updateExtraOk .resenas body = true := by
      simp [updateExtraOk, jsLtNum, jsGtNum, hcal]
    rw [update_spec, hfind]
    simp [hex, resourceOf]

/-- Claim C9, witness: a maquinas update can only answer 404 or 200. -/
theorem claim9_witness :
    (updateOne .maquinas emptyCol "m1" ([] : Payload)).2.status = 404
      ∨ (updateOne .maquinas emptyCol "m1" ([] : Payload)).2.status = 200 :=
  claim9_update_no_revalidation.1 .maquinas emptyCol "m1" []
    (fun h => ResourceKind.noConfusion h)

/-- Claim C10: every POST /pagos request is dispatched to the first
registered payment handler, whose required fields are alquilerId, monto,
metodo, fecha_pago; the body {usuarioId, monto, fecha, metodo} without
alquilerId is therefore rejected with 400 and nothing is inserted, even
though the second, shadowed registration would have accepted exactly that
field set with 201. -/
theorem claim10_pagos_dispatch :
    (∀ now : String, dispatchPost now "/pagos" = some postPagos)
    ∧ (∀ c : Collection, postPagos c bodyPagoV2 = (c, ⟨400, Body.msg pagosR.missingMsg⟩))
    ∧ alook bodyPagoV2 "alquilerId" = none
    ∧ (∀ c : Collection, postPagosV2 c bodyPagoV2
        = (⟨c.docs ++ [(genId c.nextId, bodyPagoV2)], c.nextId + 1⟩,
           ⟨201, Body.doc (genId c.nextId) bodyPagoV2⟩)) :=
  ⟨fun _ => rfl, fun _ => rfl, rfl, fun _ => rfl⟩

end Apifinal
